import Mathlib

/-!
Shallow embedding of the MCP tool-dispatch servers of this repository:
the filesystem server (src/servers/filesystem/index.ts) and the weather
server (the unnamed stdio weather script).  Each server registers a static
tool list for discovery and a call handler of the shape

    if (!args) return noArgs;
    try { ...switch on tool name... } catch (e) return errorResult e.message;

We model request arguments as JSON-like values, the try-block as a
computation in `Except String`, and the catch as the total wrapper that
turns an error message into the uniform error envelope.  External
collaborators of the filesystem handlers (node fs) are modelled by an
explicit filesystem state; JavaScript runtime failures (property access on
undefined, invalid fs argument types) are modelled as thrown messages with
representative engine wording.

Two JavaScript subtleties of the weather server are modelled faithfully:
`mockWeatherData[city]` is a property read on a plain object and therefore
also hits the inherited `Object.prototype` members reachable from
lowercased input (`"constructor"`, yielding the `Object` constructor
function whose `JSON.stringify` is `undefined`, and `"__proto__"`, yielding
`Object.prototype` whose stringification is an empty object); and
`toLowerCase()` maps U+212A KELVIN SIGN to a plain `k` in addition to the
ASCII range.  Because `JSON.stringify` can return `undefined`, the `text`
field of a content block is an `Option String`, `none` meaning the
serialized block carries no text member.
-/

namespace MCP

/-- JSON-like values, the payloads of a call request argument mapping. -/
inductive JsonV where
| str (s : String)
| num (n : Int)
| bool (b : Bool)
| null
| arr (elems : List JsonV)
| obj (fields : List (String × JsonV))

/-- An argument mapping: `request.params.arguments` when present. -/
def ArgsMap : Type := List (String × JsonV)

/-- JavaScript property access `args.k` on the argument object. -/
def argGet (m : ArgsMap) (k : String) : Option JsonV :=
  List.lookup k m

/-- One content block of a tool call response: `{ type: "text", text: ... }`.
The `text` value in the source is the result of a string expression or of
`JSON.stringify`, whose TypeScript type is `string | undefined`; an absent
(`undefined`) text is `none`. -/
structure ContentBlock where
  type : String
  text : Option String
deriving DecidableEq

/-- The uniform response envelope.  In the source a success return omits the
`isError` field, which hosts read as `false`; the model makes it explicit. -/
structure ToolCallResult where
  content : List ContentBlock
  isError : Bool
deriving DecidableEq

/-- The `if (!args)` early return shared by both servers. -/
def noArgsResult : ToolCallResult :=
  { content := [{ type := "text", text := some "Error: No arguments provided" }],
    isError := true }

/-- The catch block shared by both servers: wrap the thrown message. -/
def errorResult (msg : String) : ToolCallResult :=
  { content := [{ type := "text", text := some ("Error: " ++ msg) }],
    isError := true }

/-- A success envelope with a single text block (`isError` omitted in source). -/
def okResult (txt : String) : ToolCallResult :=
  { content := [{ type := "text", text := some txt }], isError := false }

/-- One parameter entry of a tool input schema. -/
structure ParamSpec where
  name : String
  type : String
  description : String
deriving DecidableEq

/-- The `inputSchema` object of a tool declaration. -/
structure InputSchema where
  type : String
  properties : List ParamSpec
  required : List String
deriving DecidableEq

/-- A registered tool descriptor as returned by the list-tools handler. -/
structure ToolSpec where
  name : String
  description : String
  inputSchema : InputSchema
deriving DecidableEq

/-! ## Weather server -/

/-- One record of the weather server's mock data table. -/
structure WeatherRecord where
  city : String
  temperature : Int
  unit : String
  conditions : String
  humidity : Int
  windSpeed : Int
deriving DecidableEq

/-- `mockWeatherData` from the weather server, keys as written in source. -/
def mockWeatherData : List (String × WeatherRecord) :=
  [("new york", { city := "New York", temperature := 72, unit := "F",
                  conditions := "Partly cloudy", humidity := 65, windSpeed := 12 }),
   ("london",   { city := "London", temperature := 18, unit := "C",
                  conditions := "Rainy", humidity := 80, windSpeed := 15 }),
   ("tokyo",    { city := "Tokyo", temperature := 25, unit := "C",
                  conditions := "Sunny", humidity := 55, windSpeed := 8 }),
   ("paris",    { city := "Paris", temperature := 20, unit := "C",
                  conditions := "Cloudy", humidity := 70, windSpeed := 10 }),
   ("sydney",   { city := "Sydney", temperature := 22, unit := "C",
                  conditions := "Clear", humidity := 60, windSpeed := 18 })]

/-- `JSON.stringify(weather, null, 2)` on a weather record, field order as in
the object literals of the source. -/
def weatherJson (w : WeatherRecord) : String :=
  "\x7b\n  \"city\": \"" ++ w.city ++
  "\",\n  \"temperature\": " ++ toString w.temperature ++
  ",\n  \"unit\": \"" ++ w.unit ++
  "\",\n  \"conditions\": \"" ++ w.conditions ++
  "\",\n  \"humidity\": " ++ toString w.humidity ++
  ",\n  \"windSpeed\": " ++ toString w.windSpeed ++ "\n\x7d"

/-- One element of the stringified 3-day forecast array (`day` first, then the
spread record fields), indented two more levels than a top-level object. -/
def forecastEntryJson (day : String) (w : WeatherRecord) : String :=
  "  \x7b\n    \"day\": \"" ++ day ++
  "\",\n    \"city\": \"" ++ w.city ++
  "\",\n    \"temperature\": " ++ toString w.temperature ++
  ",\n    \"unit\": \"" ++ w.unit ++
  "\",\n    \"conditions\": \"" ++ w.conditions ++
  "\",\n    \"humidity\": " ++ toString w.humidity ++
  ",\n    \"windSpeed\": " ++ toString w.windSpeed ++ "\n  \x7d"

/-- The mock 3-day forecast built by the `get_forecast` case. -/
def forecastJson (w : WeatherRecord) : String :=
  "[\n" ++ String.intercalate ",\n"
    [forecastEntryJson "Today" w,
     forecastEntryJson "Tomorrow"
       { city := w.city, temperature := w.temperature + 2, unit := w.unit,
         conditions := "Partly cloudy", humidity := w.humidity - 5,
         windSpeed := w.windSpeed + 3 },
     forecastEntryJson "Day After Tomorrow"
       { city := w.city, temperature := w.temperature - 1, unit := w.unit,
         conditions := "Cloudy", humidity := w.humidity + 10,
         windSpeed := w.windSpeed - 2 }] ++ "\n]"

/-- JavaScript per-character lowercasing, restricted to the mappings that
can influence equality with the ASCII-only lookup keys: the ASCII range
maps down, and U+212A KELVIN SIGN maps to a plain `k` — the only non-ASCII
code point whose JavaScript lowercase mapping is a single ASCII character.
Every other code point's JavaScript mapping contains a non-ASCII character
(e.g. U+0130 expands to `i` followed by U+0307), so such inputs can never
equal an ASCII-only key in the program either; they are modelled as the
identity. -/
def jsCharToLower (c : Char) : Char :=
  if c = '\u212A' then 'k' else c.toLower

/-- JavaScript `toLowerCase()` mapped over the characters of the string. -/
def jsToLowerCase (s : String) : String :=
  String.mk (s.data.map jsCharToLower)

/-- The possible outcomes of the JavaScript property read
`mockWeatherData[city]`.  The table is a plain object literal, so the read
also consults `Object.prototype`.  The key is a `toLowerCase()` result and
therefore never contains an ASCII uppercase letter, so of the inherited
member names (`constructor`, `hasOwnProperty`, `isPrototypeOf`,
`propertyIsEnumerable`, `toLocaleString`, `toString`, `valueOf`,
`__defineGetter__`, `__defineSetter__`, `__lookupGetter__`,
`__lookupSetter__`, `__proto__`) only `"constructor"` (the `Object`
constructor function) and `"__proto__"` (the `Object.prototype` object) are
reachable; both are truthy, so they pass the `if (!weather)` check. -/
inductive WeatherIndex where
| own (w : WeatherRecord)
| protoCtor
| protoProto
| undef
deriving DecidableEq

/-- The JavaScript property read `mockWeatherData[city]`: own keys first,
then the two reachable inherited names, otherwise undefined. -/
def weatherIndex (city : String) : WeatherIndex :=
  match List.lookup city mockWeatherData with
  | some w => WeatherIndex.own w
  | none =>
    if city = "constructor" then WeatherIndex.protoCtor
    else if city = "__proto__" then WeatherIndex.protoProto
    else WeatherIndex.undef

/-- `JSON.stringify(forecast, null, 2)` when the looked-up value is an
inherited `Object.prototype` member: the spread copies no own enumerable
properties (so the first element is only `day`), `currentWeather.city` and
`.unit` are `undefined` (their keys are dropped by `JSON.stringify`), and
the arithmetic on the `undefined` numeric fields yields `NaN`, serialized
as `null`.  The result is the same for both reachable inherited members. -/
def forecastProtoJson : String :=
  "[\n  \x7b\n    \"day\": \"Today\"\n  \x7d,\n  \x7b\n    \"day\": \"Tomorrow\"," ++
  "\n    \"temperature\": null,\n    \"conditions\": \"Partly cloudy\"," ++
  "\n    \"humidity\": null,\n    \"windSpeed\": null\n  \x7d,\n  \x7b" ++
  "\n    \"day\": \"Day After Tomorrow\",\n    \"temperature\": null," ++
  "\n    \"conditions\": \"Cloudy\",\n    \"humidity\": null," ++
  "\n    \"windSpeed\": null\n  \x7d\n]"

/-- TypeError thrown by `(args.city as string).toLowerCase()` when `args.city`
is absent (representative V8 wording). -/
def cityUndefinedMsg : String :=
  "Cannot read properties of undefined (reading \x27toLowerCase\x27)"

/-- TypeError thrown by `(args.city as string).toLowerCase()` when `args.city`
is null (representative V8 wording). -/
def cityNullMsg : String :=
  "Cannot read properties of null (reading \x27toLowerCase\x27)"

/-- TypeError thrown by `(args.city as string).toLowerCase()` when `args.city`
is a non-string, non-null value (representative V8 wording). -/
def cityNotAFunctionMsg : String :=
  "args.city.toLowerCase is not a function"

/-- The message thrown when the looked-up city has no mock data; interpolates
the original (not lowercased) `args.city`. -/
def weatherUnavailableMsg (rawCity : String) : String :=
  "Weather data not available for " ++
    (rawCity ++ ". Supported cities: New York, London, Tokyo, Paris, Sydney")

/-- The try block of the weather server's call handler: compute
`(args.city as string).toLowerCase()`, then switch on the tool name;
`throw` is `Except.error`. -/
def weatherTry (name : String) (args : ArgsMap) : Except String ToolCallResult :=
  match argGet args "city" with
  | none => .error cityUndefinedMsg
  | some JsonV.null => .error cityNullMsg
  | some (JsonV.str rawCity) =>
    match name with
    | "get_weather" =>
      match weatherIndex (jsToLowerCase rawCity) with
      | WeatherIndex.own w => .ok (okResult (weatherJson w))
      | WeatherIndex.protoCtor =>
        .ok { content := [{ type := "text", text := none }], isError := false }
      | WeatherIndex.protoProto => .ok (okResult "\x7b\x7d")
      | WeatherIndex.undef => .error (weatherUnavailableMsg rawCity)
    | "get_forecast" =>
      match weatherIndex (jsToLowerCase rawCity) with
      | WeatherIndex.own w => .ok (okResult (forecastJson w))
      | WeatherIndex.protoCtor => .ok (okResult forecastProtoJson)
      | WeatherIndex.protoProto => .ok (okResult forecastProtoJson)
      | WeatherIndex.undef => .error (weatherUnavailableMsg rawCity)
    | _ => .error ("Unknown tool: " ++ name)
  | some _ => .error cityNotAFunctionMsg

/-- The weather server's full call handler: the `!args` guard, then the try
block with the catch wrapping every thrown message into the error envelope. -/
def weatherCallTool (name : String) (args : Option ArgsMap) : ToolCallResult :=
  match args with
  | none => noArgsResult
  | some m =>
    match weatherTry name m with
    | .ok r => r
    | .error msg => errorResult msg

/-- The weather server's static tool list, in registration order. -/
def weatherTools : List ToolSpec :=
  [{ name := "get_weather",
     description := "Get current weather information for a city (mock data). Supported cities: New York, London, Tokyo, Paris, Sydney",
     inputSchema := { type := "object",
                      properties := [{ name := "city", type := "string",
                                       description := "Name of the city to get weather for" }],
                      required := ["city"] } },
   { name := "get_forecast",
     description := "Get 3-day weather forecast for a city (mock data)",
     inputSchema := { type := "object",
                      properties := [{ name := "city", type := "string",
                                       description := "Name of the city to get forecast for" }],
                      required := ["city"] } }]

/-! ## Filesystem server -/

/-- One entry of a directory listing (`withFileTypes`): its name and whether
`entry.isDirectory()` holds. -/
structure DirEntry where
  name : String
  isDir : Bool
deriving DecidableEq

/-- Abstract state of the external filesystem collaborator: the readable
files with their contents, and the listable directories with their entries. -/
structure FSState where
  files : List (String × String)
  dirs : List (String × List DirEntry)
deriving DecidableEq

/-- Rejection raised by node fs operations when a non-string path argument is
passed (`args.path as string` does not convert; representative wording of
node's ERR_INVALID_ARG_TYPE). -/
def pathTypeMsg : String :=
  "The \"path\" argument must be of type string. Received a value that is not a string"

/-- Rejection raised by `fs.writeFile` when the data argument is not a string
(representative wording of node's ERR_INVALID_ARG_TYPE). -/
def dataTypeMsg : String :=
  "The \"data\" argument must be of type string. Received a value that is not a string"

/-- ENOENT message of `fs.readFile` on a missing file. -/
def enoentOpenMsg (p : String) : String :=
  "ENOENT: no such file or directory, open \x27" ++ (p ++ "\x27")

/-- ENOENT message of `fs.readdir` on a missing directory. -/
def enoentScandirMsg (p : String) : String :=
  "ENOENT: no such file or directory, scandir \x27" ++ (p ++ "\x27")

/-- `await fs.readFile(args.path, "utf-8")`: model of the external call,
rejecting non-string paths and missing files. -/
def fsReadFile (fs : FSState) (v : Option JsonV) : Except String String :=
  match v with
  | some (JsonV.str p) =>
    match List.lookup p fs.files with
    | some c => .ok c
    | none => .error (enoentOpenMsg p)
  | _ => .error pathTypeMsg

/-- Overwrite-or-append update of the file table performed by a successful
`fs.writeFile`. -/
def setFile (files : List (String × String)) (p c : String) : List (String × String) :=
  match files with
  | [] => [(p, c)]
  | (q, d) :: rest => if q = p then (p, c) :: rest else (q, d) :: setFile rest p c

/-- `await fs.readdir(args.path, withFileTypes)`: model of the external call. -/
def fsReadDir (fs : FSState) (v : Option JsonV) : Except String (List DirEntry) :=
  match v with
  | some (JsonV.str p) =>
    match List.lookup p fs.dirs with
    | some es => .ok es
    | none => .error (enoentScandirMsg p)
  | _ => .error pathTypeMsg

/-- `JSON.stringify(items, null, 2)` on the mapped directory entries, where
each item is `{ name, type }` with `type` either `"directory"` or `"file"`. -/
def dirItemJson (e : DirEntry) : String :=
  "  \x7b\n    \"name\": \"" ++ e.name ++
  "\",\n    \"type\": \"" ++ (if e.isDir then "directory" else "file") ++ "\"\n  \x7d"

/-- The full stringified directory listing. -/
def dirJson (es : List DirEntry) : String :=
  match es with
  | [] => "[]"
  | _ => "[\n" ++ String.intercalate ",\n" (es.map dirItemJson) ++ "\n]"

/-- The try block of the filesystem server's call handler: switch on tool
name; `throw` (including rejections of awaited fs promises) is
`Except.error`.  Returns the response together with the filesystem state
after the call. -/
def fsTry (name : String) (args : ArgsMap) (fs : FSState) :
    Except String (ToolCallResult × FSState) :=
  match name with
  | "read_file" =>
    match fsReadFile fs (argGet args "path") with
    | .error e => .error e
    | .ok content => .ok (okResult content, fs)
  | "write_file" =>
    match argGet args "path", argGet args "content" with
    | some (JsonV.str p), some (JsonV.str c) =>
      .ok (okResult ("Successfully wrote to " ++ p),
           { fs with files := setFile fs.files p c })
    | some (JsonV.str _), _ => .error dataTypeMsg
    | _, _ => .error pathTypeMsg
  | "list_directory" =>
    match fsReadDir fs (argGet args "path") with
    | .error e => .error e
    | .ok entries => .ok (okResult (dirJson entries), fs)
  | _ => .error ("Unknown tool: " ++ name)

/-- The filesystem server's full call handler: the `!args` guard, then the
try block with the catch wrapping every thrown message into the error
envelope (a thrown call leaves the filesystem unchanged). -/
def fsCallTool (name : String) (args : Option ArgsMap) (fs : FSState) :
    ToolCallResult × FSState :=
  match args with
  | none => (noArgsResult, fs)
  | some m =>
    match fsTry name m fs with
    | .ok rs => rs
    | .error msg => (errorResult msg, fs)

/-- The filesystem server's static tool list, in registration order. -/
def fsTools : List ToolSpec :=
  [{ name := "read_file",
     description := "Read the contents of a file from the filesystem",
     inputSchema := { type := "object",
                      properties := [{ name := "path", type := "string",
                                       description := "Path to the file to read" }],
                      required := ["path"] } },
   { name := "write_file",
     description := "Write content to a file on the filesystem",
     inputSchema := { type := "object",
                      properties := [{ name := "path", type := "string",
                                       description := "Path to the file to write" },
                                     { name := "content", type := "string",
                                       description := "Content to write to the file" }],
                      required := ["path", "content"] } },
   { name := "list_directory",
     description := "List contents of a directory",
     inputSchema := { type := "object",
                      properties := [{ name := "path", type := "string",
                                       description := "Path to the directory to list" }],
                      required := ["path"] } }]

/-! ## Server request loop -/

/-- The two request kinds a server receives: discovery and tool call. -/
inductive Request where
| list
| call (name : String) (args : Option ArgsMap)

/-- The two response shapes a server produces. -/
inductive Response where
| toolList (tools : List ToolSpec)
| result (r : ToolCallResult)
deriving DecidableEq

/-- One dispatch step of the filesystem server: the list-tools handler
returns the static registry; the call handler runs `fsCallTool`. -/
def fsHandle (fs : FSState) : Request → Response × FSState
  | Request.list => (Response.toolList fsTools, fs)
  | Request.call n a =>
    let rs := fsCallTool n a fs
    (Response.result rs.1, rs.2)

/-- Process a sequence of requests, threading the filesystem state. -/
def fsRun (fs : FSState) : List Request → FSState
  | [] => fs
  | r :: rs => fsRun (fsHandle fs r).2 rs

/-- One dispatch step of the (stateless) weather server. -/
def weatherHandle : Request → Response
  | Request.list => Response.toolList weatherTools
  | Request.call n a => Response.result (weatherCallTool n a)

/-! ## Registry construction (spec model) -/

/-- Modelled from the spec: the repository has no registry constructor in
src (each server's tool list is a static literal and dispatch a hand-written
switch); the spec's ToolDispatchCore requires that registering two ToolSpecs
with the same name is rejected when the registry is constructed at startup.
`mkRegistry` builds the write-once registry from the declared specs and
fails fast on a duplicate name. -/
def mkRegistry (ts : List ToolSpec) : Except String (List ToolSpec) :=
  if (ts.map ToolSpec.name).Nodup then .ok ts
  else .error "Duplicate tool name in registry"

/-- The substring-containment property used by the spec's error-text
requirements: `mid` occurs contiguously in `hay`. -/
def ContainsStr (hay mid : String) : Prop :=
  List.IsInfix mid.data hay.data

instance (hay mid : String) : Decidable (ContainsStr hay mid) :=
  List.decidableInfix mid.data hay.data

/-- A content block carries a text and that text contains `mid`. -/
def blockContains (cb : ContentBlock) (mid : String) : Prop :=
  ∃ t, cb.text = some t ∧ ContainsStr t mid

instance (cb : ContentBlock) (mid : String) : Decidable (blockContains cb mid) :=
  match h : cb.text with
  | none => isFalse fun ⟨_, ht, _⟩ => by rw [h] at ht; cases ht
  | some t =>
    decidable_of_iff (ContainsStr t mid)
      ⟨fun hc => ⟨t, h, hc⟩, fun ⟨t2, ht2, hc⟩ => by rw [h] at ht2; cases ht2; exact hc⟩

set_option maxRecDepth 100000

/-! ## Helper lemmas -/

/-- Every success the weather try block can produce is a single-text-block
envelope with the error flag unset. -/
theorem weatherTry_ok (n : String) (m : ArgsMap) (r : ToolCallResult)
    (h : weatherTry n m = Except.ok r) : r.content.length = 1 ∧ r.isError = false := by
  unfold weatherTry at h
  repeat' split at h
  all_goals cases h
  all_goals exact ⟨rfl, rfl⟩

/-- Every message the weather try block can throw. -/
theorem weatherTry_error (n : String) (m : ArgsMap) (e : String)
    (h : weatherTry n m = Except.error e) :
    e = cityUndefinedMsg ∨ e = cityNullMsg ∨ e = cityNotAFunctionMsg ∨
    (∃ raw, e = weatherUnavailableMsg raw) ∨ e = "Unknown tool: " ++ n := by
  unfold weatherTry at h
  repeat' split at h
  all_goals cases h
  all_goals tauto

/-- Every message the modelled `fs.readFile` can reject with. -/
theorem fsReadFile_error (fs : FSState) (v : Option JsonV) (e : String)
    (h : fsReadFile fs v = Except.error e) : e = pathTypeMsg ∨ ∃ p, e = enoentOpenMsg p := by
  unfold fsReadFile at h
  repeat' split at h
  all_goals cases h
  all_goals tauto

/-- Every message the modelled `fs.readdir` can reject with. -/
theorem fsReadDir_error (fs : FSState) (v : Option JsonV) (e : String)
    (h : fsReadDir fs v = Except.error e) : e = pathTypeMsg ∨ ∃ p, e = enoentScandirMsg p := by
  unfold fsReadDir at h
  repeat' split at h
  all_goals cases h
  all_goals tauto

/-- Every success the filesystem try block can produce is a single-text-block
envelope with the error flag unset. -/
theorem fsTry_ok (n : String) (m : ArgsMap) (fs : FSState) (r : ToolCallResult) (fs2 : FSState)
    (h : fsTry n m fs = Except.ok (r, fs2)) : r.content.length = 1 ∧ r.isError = false := by
  unfold fsTry at h
  repeat' split at h
  all_goals cases h
  all_goals exact ⟨rfl, rfl⟩

/-- Every message the filesystem try block can throw. -/
theorem fsTry_error (n : String) (m : ArgsMap) (fs : FSState) (e : String)
    (h : fsTry n m fs = Except.error e) :
    e = pathTypeMsg ∨ e = dataTypeMsg ∨ (∃ p, e = enoentOpenMsg p) ∨
    (∃ p, e = enoentScandirMsg p) ∨ e = "Unknown tool: " ++ n := by
  unfold fsTry at h
  repeat' split at h
  all_goals cases h
  all_goals first
    | tauto
    | (rename_i hr
       rcases fsReadFile_error _ _ _ hr with h1 | ⟨p, h1⟩ <;> subst h1 <;> tauto)
    | (rename_i hr
       rcases fsReadDir_error _ _ _ hr with h1 | ⟨p, h1⟩ <;> subst h1 <;> tauto)

/-- A string starting with `c` differs from any string not starting with `c`,
whatever follows. -/
theorem head_ne_of_append (c : Char) (pre p t : String)
    (hpre : pre.data.head? = some c) (ht : t.data.head? ≠ some c) : pre ++ p ≠ t := by
  intro he
  apply ht
  rw [← he, String.data_append]
  cases hd : pre.data with
  | nil => rw [hd] at hpre; exact absurd hpre (by simp)
  | cons a l =>
    rw [hd] at hpre
    simp at hpre
    simp [hpre]

/-- String concatenation cancels on the left. -/
theorem str_append_left_cancel (a b c : String) (h : a ++ b = a ++ c) : b = c := by
  have h2 := congrArg String.data h
  rw [String.data_append, String.data_append] at h2
  have h3 := List.append_cancel_left h2
  cases b; cases c; simp at h3; rw [h3]

/-- A string is contained in any string extending it on the left. -/
theorem containsStr_of_append_left (pre mid : String) : ContainsStr (pre ++ mid) mid := by
  refine ⟨pre.data, [], ?_⟩
  simp [String.data_append]

/-- No message the weather try block throws is the no-arguments guard text. -/
theorem weatherTry_error_ne (n : String) (m : ArgsMap) (e : String)
    (h : weatherTry n m = Except.error e) : e ≠ "No arguments provided" := by
  rcases weatherTry_error n m e h with h1 | h1 | h1 | ⟨raw, h1⟩ | h1 <;> subst h1
  · decide
  · decide
  · decide
  · exact head_ne_of_append 'W' "Weather data not available for " _ _ rfl (by decide)
  · exact head_ne_of_append 'U' "Unknown tool: " _ _ rfl (by decide)

/-- No message the filesystem try block throws is the no-arguments guard text. -/
theorem fsTry_error_ne (n : String) (m : ArgsMap) (fs : FSState) (e : String)
    (h : fsTry n m fs = Except.error e) : e ≠ "No arguments provided" := by
  rcases fsTry_error n m fs e h with h1 | h1 | ⟨p, h1⟩ | ⟨p, h1⟩ | h1 <;> subst h1
  · decide
  · decide
  · exact head_ne_of_append 'E' "ENOENT: no such file or directory, open \x27" _ _ rfl (by decide)
  · exact head_ne_of_append 'E' "ENOENT: no such file or directory, scandir \x27" _ _ rfl (by decide)
  · exact head_ne_of_append 'U' "Unknown tool: " _ _ rfl (by decide)

/-- Wrapping a message other than the guard message never yields the guard
text. -/
theorem errorResult_text_ne_noArgs (msg : String) (h : msg ≠ "No arguments provided") :
    "Error: " ++ msg ≠ "Error: No arguments provided" := by
  intro he
  apply h
  apply str_append_left_cancel "Error: "
  rw [he]
  rfl

/-! ## Claim theorems -/

/-- C1: for every tool name and every argument mapping (including malformed
ones), both call handlers return a ToolCallResult: the missing-arguments
guard returns the guard envelope, and otherwise either the try block
succeeds and its result is returned, or it throws some message and the
catch returns the corresponding error envelope — no failure escapes the
dispatch boundary. -/
theorem callTool_total_absorbs_failures :
    ∀ (name : String) (m : ArgsMap) (fs : FSState),
      fsCallTool name none fs = (noArgsResult, fs) ∧
      weatherCallTool name none = noArgsResult ∧
      ((∃ rs, fsTry name m fs = Except.ok rs ∧ fsCallTool name (some m) fs = rs) ∨
       (∃ e, fsTry name m fs = Except.error e ∧
             fsCallTool name (some m) fs = (errorResult e, fs))) ∧
      ((∃ r, weatherTry name m = Except.ok r ∧ weatherCallTool name (some m) = r) ∨
       (∃ e, weatherTry name m = Except.error e ∧
             weatherCallTool name (some m) = errorResult e)) := by
  intro name m fs
  refine ⟨rfl, rfl, ?_, ?_⟩
  · cases h : fsTry name m fs with
    | ok rs => exact Or.inl ⟨rs, rfl, by simp [fsCallTool, h]⟩
    | error e => exact Or.inr ⟨e, rfl, by simp [fsCallTool, h]⟩
  · cases h : weatherTry name m with
    | ok r => exact Or.inl ⟨r, rfl, by simp [weatherCallTool, h]⟩
    | error e => exact Or.inr ⟨e, rfl, by simp [weatherCallTool, h]⟩

/-- C2: for every tool name (registered or not) and every server state, a
call with absent or null arguments returns exactly the single-block
`"Error: No arguments provided"` envelope, without touching the registry,
any handler, or the filesystem state. -/
theorem callTool_missing_args_guard :
    ∀ (name : String) (fs : FSState),
      weatherCallTool name none = noArgsResult ∧
      fsCallTool name none fs = (noArgsResult, fs) ∧
      noArgsResult = { content := [{ type := "text",
                                     text := some "Error: No arguments provided" }],
                       isError := true } := by
  intro name fs
  exact ⟨rfl, rfl, rfl⟩

/-- C5: after any sequence of prior discovery and call requests, a tool-list
request returns the full static registry in registration order and leaves
the server state unchanged; both servers' registries are the fixed lists of
the source. -/
theorem listTools_stable :
    ∀ (reqs : List Request) (fs0 : FSState),
      fsHandle (fsRun fs0 reqs) Request.list = (Response.toolList fsTools, fsRun fs0 reqs) ∧
      weatherHandle Request.list = Response.toolList weatherTools ∧
      fsTools.map ToolSpec.name = ["read_file", "write_file", "list_directory"] ∧
      weatherTools.map ToolSpec.name = ["get_weather", "get_forecast"] := by
  intro reqs fs0
  exact ⟨rfl, rfl, rfl, rfl⟩

/-- C6: every ToolCallResult either call handler returns has at least one
content block, on the guard, success, and error paths alike. -/
theorem result_content_nonempty :
    ∀ (name : String) (args : Option ArgsMap) (fs : FSState),
      0 < (weatherCallTool name args).content.length ∧
      0 < ((fsCallTool name args fs).1).content.length := by
  intro name args fs
  constructor
  · cases args with
    | none => simp [weatherCallTool, noArgsResult]
    | some m =>
      cases h : weatherTry name m with
      | ok r =>
        have hr := weatherTry_ok name m r h
        simp [weatherCallTool, h, hr.1]
      | error e => simp [weatherCallTool, h, errorResult]
  · cases args with
    | none => simp [fsCallTool, noArgsResult]
    | some m =>
      cases h : fsTry name m fs with
      | ok rs =>
        obtain ⟨r, fs2⟩ := rs
        have hr := fsTry_ok name m fs r fs2 h
        simp [fsCallTool, h, hr.1]
      | error e => simp [fsCallTool, h, errorResult]

/-- C8: both call handlers are deterministic functions of the request and
the server state, and produce exactly one result per request. -/
theorem callTool_deterministic :
    ∀ (n n2 : String) (a a2 : Option ArgsMap) (fs fs2 : FSState),
      n = n2 → a = a2 → fs = fs2 →
      weatherCallTool n a = weatherCallTool n2 a2 ∧
      fsCallTool n a fs = fsCallTool n2 a2 fs2 ∧
      (∃! r, weatherCallTool n a = r) ∧
      (∃! rs, fsCallTool n a fs = rs) := by
  intro n n2 a a2 fs fs2 hn ha hf
  subst hn; subst ha; subst hf
  exact ⟨rfl, rfl,
    ⟨weatherCallTool n a, rfl, fun y hy => hy.symm⟩,
    ⟨fsCallTool n a fs, rfl, fun y hy => hy.symm⟩⟩

/-- C8 witness: the determinism theorem applied at a concrete request. -/
theorem callTool_deterministic_witness :
    weatherCallTool "get_weather" (some [("city", JsonV.str "Tokyo")]) =
      weatherCallTool "get_weather" (some [("city", JsonV.str "Tokyo")]) :=
  (callTool_deterministic "get_weather" "get_weather"
    (some [("city", JsonV.str "Tokyo")]) (some [("city", JsonV.str "Tokyo")])
    ⟨[], []⟩ ⟨[], []⟩ rfl rfl rfl).1

/-- C3 counterexample: in the weather server, `(args.city as string).toLowerCase()`
runs before the tool-name switch, so calling the unregistered tool `nope` with
the argument mapping `{}` (which supplies an arguments mapping) yields the
city-access TypeError envelope, and no content block contains
`"Unknown tool: nope"`. -/
theorem unknown_tool_text_cex :
    weatherCallTool "nope" (some []) = errorResult cityUndefinedMsg ∧
    (∀ cb ∈ (weatherCallTool "nope" (some [])).content,
      ¬ blockContains cb "Unknown tool: nope") := by
  constructor
  · decide
  · decide

/-- C3 amended: a call naming an unregistered tool returns `isError = true`
with a text block containing `"Unknown tool: <name>"` — unconditionally in
the filesystem server, and in the weather server provided the arguments map
`city` to a string (otherwise the weather server still returns an error
envelope, but with the city-access failure message). -/
theorem unknown_tool_error_amended :
    ∀ (name : String) (m : ArgsMap) (fs : FSState),
      (name ≠ "read_file" → name ≠ "write_file" → name ≠ "list_directory" →
        fsCallTool name (some m) fs = (errorResult ("Unknown tool: " ++ name), fs) ∧
        ∀ cb ∈ (fsCallTool name (some m) fs).1.content,
          blockContains cb ("Unknown tool: " ++ name)) ∧
      (∀ raw, argGet m "city" = some (JsonV.str raw) →
        name ≠ "get_weather" → name ≠ "get_forecast" →
        weatherCallTool name (some m) = errorResult ("Unknown tool: " ++ name) ∧
        ∀ cb ∈ (weatherCallTool name (some m)).content,
          blockContains cb ("Unknown tool: " ++ name)) := by
  intro name m fs
  constructor
  · intro h1 h2 h3
    have hf : fsTry name m fs = Except.error ("Unknown tool: " ++ name) := by
      unfold fsTry
      split <;> simp_all
    constructor
    · simp [fsCallTool, hf]
    · simp only [fsCallTool, hf, errorResult, List.mem_singleton]
      intro cb hcb
      subst hcb
      exact ⟨"Error: " ++ ("Unknown tool: " ++ name), rfl,
             containsStr_of_append_left "Error: " ("Unknown tool: " ++ name)⟩
  · intro raw hraw h1 h2
    have hw : weatherTry name m = Except.error ("Unknown tool: " ++ name) := by
      simp only [weatherTry, hraw]
    constructor
    · simp [weatherCallTool, hw]
    · simp only [weatherCallTool, hw, errorResult, List.mem_singleton]
      intro cb hcb
      subst hcb
      exact ⟨"Error: " ++ ("Unknown tool: " ++ name), rfl,
             containsStr_of_append_left "Error: " ("Unknown tool: " ++ name)⟩

/-- C3 witness: the amended theorem applied to the unregistered tool `nope`
on both servers, with a string city supplied on the weather side. -/
theorem unknown_tool_error_amended_witness :
    weatherCallTool "nope" (some [("city", JsonV.str "Paris")]) =
      errorResult ("Unknown tool: " ++ "nope") ∧
    fsCallTool "nope" (some [("city", JsonV.str "Paris")]) ⟨[], []⟩ =
      (errorResult ("Unknown tool: " ++ "nope"), ⟨[], []⟩) := by
  have h := unknown_tool_error_amended "nope" [("city", JsonV.str "Paris")] ⟨[], []⟩
  exact ⟨(h.2 "Paris" rfl (by decide) (by decide)).1,
         (h.1 (by decide) (by decide) (by decide)).1⟩

/-- C4 counterexample: at the concrete input city `"Constructor"` the
`get_weather` case completes without throwing (no error flag) because
`mockWeatherData["constructor"]` hits the inherited
`Object.prototype.constructor`, yet `JSON.stringify` of that function is
`undefined`, so the returned success envelope's only block carries no text
at all — not a textual encoding of any handler value. -/
theorem weather_ctor_success_cex :
    weatherCallTool "get_weather" (some [("city", JsonV.str "Constructor")]) =
      { content := [{ type := "text", text := none }], isError := false } ∧
    ∀ cb ∈ (weatherCallTool "get_weather"
              (some [("city", JsonV.str "Constructor")])).content,
      cb.text = none := by
  constructor
  · decide
  · decide

/-- C4 amended: whenever a registered tool's handler succeeds through an own
key of the mock table or an fs hit, the result is an `isError = false`
envelope whose single text block is the fixed textual encoding of the
handler value: the pretty-printed weather or forecast JSON (injective on
the mock records), the identical file contents for `read_file`, the
path-determined confirmation for `write_file` (injective in the path), and
the pretty-printed entry list for `list_directory`.  The exception are the
two reachable `Object.prototype` keys: a city lowercasing to
`"constructor"` makes `get_weather` succeed with a block holding no text,
one lowercasing to `"__proto__"` with the empty-object text, and
`get_forecast` at either key succeeds with the degenerate forecast JSON. -/
theorem callTool_success_envelope :
    (∀ (m : ArgsMap) (raw : String) (w : WeatherRecord),
      argGet m "city" = some (JsonV.str raw) →
      List.lookup (jsToLowerCase raw) mockWeatherData = some w →
      weatherCallTool "get_weather" (some m) = okResult (weatherJson w)) ∧
    (∀ (m : ArgsMap) (raw : String) (w : WeatherRecord),
      argGet m "city" = some (JsonV.str raw) →
      List.lookup (jsToLowerCase raw) mockWeatherData = some w →
      weatherCallTool "get_forecast" (some m) = okResult (forecastJson w)) ∧
    (∀ (m : ArgsMap) (raw : String),
      argGet m "city" = some (JsonV.str raw) → jsToLowerCase raw = "constructor" →
      weatherCallTool "get_weather" (some m) =
        { content := [{ type := "text", text := none }], isError := false }) ∧
    (∀ (m : ArgsMap) (raw : String),
      argGet m "city" = some (JsonV.str raw) → jsToLowerCase raw = "__proto__" →
      weatherCallTool "get_weather" (some m) = okResult "\x7b\x7d") ∧
    (∀ (m : ArgsMap) (raw : String),
      argGet m "city" = some (JsonV.str raw) →
      (jsToLowerCase raw = "constructor" ∨ jsToLowerCase raw = "__proto__") →
      weatherCallTool "get_forecast" (some m) = okResult forecastProtoJson) ∧
    (∀ w1 w2 : WeatherRecord, w1 ∈ mockWeatherData.map Prod.snd →
      w2 ∈ mockWeatherData.map Prod.snd → weatherJson w1 = weatherJson w2 → w1 = w2) ∧
    (∀ (m : ArgsMap) (p c : String) (fs : FSState),
      argGet m "path" = some (JsonV.str p) → List.lookup p fs.files = some c →
      fsCallTool "read_file" (some m) fs = (okResult c, fs)) ∧
    (∀ (m : ArgsMap) (p c : String) (fs : FSState),
      argGet m "path" = some (JsonV.str p) → argGet m "content" = some (JsonV.str c) →
      fsCallTool "write_file" (some m) fs =
        (okResult ("Successfully wrote to " ++ p), { fs with files := setFile fs.files p c })) ∧
    (∀ p q : String, "Successfully wrote to " ++ p = "Successfully wrote to " ++ q → p = q) ∧
    (∀ (m : ArgsMap) (p : String) (es : List DirEntry) (fs : FSState),
      argGet m "path" = some (JsonV.str p) → List.lookup p fs.dirs = some es →
      fsCallTool "list_directory" (some m) fs = (okResult (dirJson es), fs)) := by
  refine ⟨?_, ?_, ?_, ?_, ?_, ?_, ?_, ?_, ?_, ?_⟩
  · intro m raw w hraw hw
    simp [weatherCallTool, weatherTry, weatherIndex, hraw, hw]
  · intro m raw w hraw hw
    simp [weatherCallTool, weatherTry, weatherIndex, hraw, hw]
  · intro m raw hraw hc
    have hi : weatherIndex (jsToLowerCase raw) = WeatherIndex.protoCtor := by
      rw [hc]; decide
    simp [weatherCallTool, weatherTry, hraw, hi]
  · intro m raw hraw hc
    have hi : weatherIndex (jsToLowerCase raw) = WeatherIndex.protoProto := by
      rw [hc]; decide
    simp [weatherCallTool, weatherTry, hraw, hi]
  · intro m raw hraw hc
    rcases hc with hc | hc
    · have hi : weatherIndex (jsToLowerCase raw) = WeatherIndex.protoCtor := by
        rw [hc]; decide
      simp [weatherCallTool, weatherTry, hraw, hi]
    · have hi : weatherIndex (jsToLowerCase raw) = WeatherIndex.protoProto := by
        rw [hc]; decide
      simp [weatherCallTool, weatherTry, hraw, hi]
  · intro w1 w2 h1 h2
    fin_cases h1 <;> fin_cases h2 <;>
      first
        | (intro _; rfl)
        | (intro hj; exact absurd hj (by decide))
  · intro m p c fs hp hc
    simp [fsCallTool, fsTry, fsReadFile, hp, hc]
  · intro m p c fs hp hc
    simp [fsCallTool, fsTry, hp, hc]
  · intro p q h
    exact str_append_left_cancel "Successfully wrote to " p q h
  · intro m p es fs hp hd
    simp [fsCallTool, fsTry, fsReadDir, hp, hd]

/-- C4 witness: the success-envelope theorem applied to a weather call for
Tokyo and a file read on a one-file filesystem. -/
theorem callTool_success_envelope_witness :
    weatherCallTool "get_weather" (some [("city", JsonV.str "Tokyo")]) =
      okResult (weatherJson { city := "Tokyo", temperature := 25, unit := "C",
                              conditions := "Sunny", humidity := 55, windSpeed := 8 }) ∧
    fsCallTool "read_file" (some [("path", JsonV.str "/tmp/a.txt")])
        ⟨[("/tmp/a.txt", "hello")], []⟩ =
      (okResult "hello", ⟨[("/tmp/a.txt", "hello")], []⟩) := by
  refine ⟨?_, ?_⟩
  · exact callTool_success_envelope.1 [("city", JsonV.str "Tokyo")] "Tokyo" _ rfl (by decide)
  · exact callTool_success_envelope.2.2.2.2.2.2.1 [("path", JsonV.str "/tmp/a.txt")]
      "/tmp/a.txt" "hello" ⟨[("/tmp/a.txt", "hello")], []⟩ rfl (by decide)

/-- C7: registry construction succeeds exactly when the declared tool names
are duplicate-free, rejecting a duplicate at construction time, and both
servers' static registries have unique names. -/
theorem registry_unique_names :
    (∀ ts : List ToolSpec, (∃ reg, mkRegistry ts = Except.ok reg) ↔ (ts.map ToolSpec.name).Nodup) ∧
    (∀ (t : ToolSpec) (ts : List ToolSpec),
      mkRegistry (t :: t :: ts) = Except.error "Duplicate tool name in registry") ∧
    mkRegistry fsTools = Except.ok fsTools ∧
    mkRegistry weatherTools = Except.ok weatherTools ∧
    (fsTools.map ToolSpec.name).Nodup ∧
    (weatherTools.map ToolSpec.name).Nodup := by
  refine ⟨?_, ?_, ?_, ?_, by decide, by decide⟩
  · intro ts
    constructor
    · rintro ⟨reg, hr⟩
      by_contra hn
      simp [mkRegistry, hn] at hr
    · intro hn
      exact ⟨ts, by simp [mkRegistry, hn]⟩
  · intro t ts
    simp [mkRegistry, List.nodup_cons]
  · rw [mkRegistry, if_pos (by decide)]
  · rw [mkRegistry, if_pos (by decide)]

/-- C9: when an argument mapping is supplied (even the empty one), the
top-level guard does not fire: any error envelope either server returns
carries a handler-level message, never the text
`"Error: No arguments provided"`. -/
theorem args_present_no_guard_text :
    ∀ (name : String) (m : ArgsMap) (fs : FSState),
      ((weatherCallTool name (some m)).isError = true →
        ∀ cb ∈ (weatherCallTool name (some m)).content,
          cb.text ≠ some "Error: No arguments provided") ∧
      (((fsCallTool name (some m) fs).1).isError = true →
        ∀ cb ∈ ((fsCallTool name (some m) fs).1).content,
          cb.text ≠ some "Error: No arguments provided") := by
  intro name m fs
  constructor
  · intro hErr cb hcb
    cases h : weatherTry name m with
    | ok r =>
      have hr := weatherTry_ok name m r h
      rw [weatherCallTool] at hErr
      simp only [h] at hErr
      rw [hr.2] at hErr
      cases hErr
    | error e =>
      have hne := weatherTry_error_ne name m e h
      simp only [weatherCallTool, h, errorResult, List.mem_singleton] at hcb
      subst hcb
      intro hEq
      exact errorResult_text_ne_noArgs e hne (Option.some.inj hEq)
  · intro hErr cb hcb
    cases h : fsTry name m fs with
    | ok rs =>
      obtain ⟨r, fs2⟩ := rs
      have hr := fsTry_ok name m fs r fs2 h
      rw [fsCallTool] at hErr
      simp only [h] at hErr
      rw [hr.2] at hErr
      cases hErr
    | error e =>
      have hne := fsTry_error_ne name m fs e h
      simp only [fsCallTool, h, errorResult, List.mem_singleton] at hcb
      subst hcb
      intro hEq
      exact errorResult_text_ne_noArgs e hne (Option.some.inj hEq)

/-- C9 witness: the theorem applied to a `read_file` call with an empty
argument mapping, whose failure message is the path-type rejection, not the
guard text. -/
theorem args_present_no_guard_text_witness :
    ({ type := "text", text := some ("Error: " ++ pathTypeMsg) } : ContentBlock).text ≠
      some "Error: No arguments provided" := by
  have h := (args_present_no_guard_text "read_file" [] ⟨[], []⟩).2 (by decide)
  exact h { type := "text", text := some ("Error: " ++ pathTypeMsg) } (by decide)

/-- C10 counterexample: the city `"__proto__"` lowercases to itself and is
not one of the five supported keys, so the claim demands an error envelope
naming it; instead `mockWeatherData["__proto__"]` yields the truthy
`Object.prototype`, and the call succeeds with the empty-object text and no
error flag. -/
theorem weather_proto_success_cex :
    weatherCallTool "get_weather" (some [("city", JsonV.str "__proto__")]) =
      okResult "\x7b\x7d" ∧
    (weatherCallTool "get_weather" (some [("city", JsonV.str "__proto__")])).isError
      = false := by
  constructor
  · decide
  · decide

/-- C10 amended: the mock table's keys are exactly the five supported
cities; a `get_weather` call whose string city lowercases (JavaScript
lowercasing, which also maps U+212A to `k`) to a key returns the success
envelope with that record's JSON, and any other string city returns the
error envelope naming the city and listing the five supported cities —
except cities lowercasing to the two reachable `Object.prototype` keys:
`"constructor"` succeeds with a block holding no text and `"__proto__"`
succeeds with the empty-object text. -/
theorem get_weather_city_semantics :
    (mockWeatherData.map Prod.fst = ["new york", "london", "tokyo", "paris", "sydney"]) ∧
    (∀ s : String, List.lookup s mockWeatherData = none ↔
      s ∉ ["new york", "london", "tokyo", "paris", "sydney"]) ∧
    (∀ s : String, s ∈ ["new york", "london", "tokyo", "paris", "sydney"] →
      ∃ w, List.lookup s mockWeatherData = some w) ∧
    (∀ (m : ArgsMap) (raw : String) (w : WeatherRecord),
      argGet m "city" = some (JsonV.str raw) →
      List.lookup (jsToLowerCase raw) mockWeatherData = some w →
      weatherCallTool "get_weather" (some m) = okResult (weatherJson w)) ∧
    (∀ (m : ArgsMap) (raw : String),
      argGet m "city" = some (JsonV.str raw) →
      List.lookup (jsToLowerCase raw) mockWeatherData = none →
      jsToLowerCase raw ≠ "constructor" → jsToLowerCase raw ≠ "__proto__" →
      weatherCallTool "get_weather" (some m) = errorResult (weatherUnavailableMsg raw)) ∧
    (∀ (m : ArgsMap) (raw : String),
      argGet m "city" = some (JsonV.str raw) → jsToLowerCase raw = "constructor" →
      weatherCallTool "get_weather" (some m) =
        { content := [{ type := "text", text := none }], isError := false }) ∧
    (∀ (m : ArgsMap) (raw : String),
      argGet m "city" = some (JsonV.str raw) → jsToLowerCase raw = "__proto__" →
      weatherCallTool "get_weather" (some m) = okResult "\x7b\x7d") ∧
    weatherCallTool "get_weather" (some [("city", JsonV.str "TO\u212AYO")]) =
      okResult (weatherJson { city := "Tokyo", temperature := 25, unit := "C",
                              conditions := "Sunny", humidity := 55, windSpeed := 8 }) := by
  refine ⟨rfl, ?_, ?_, ?_, ?_, ?_, ?_, by decide⟩
  · intro s
    simp only [mockWeatherData, List.lookup]
    repeat' split
    all_goals simp_all
  · intro s hs
    fin_cases hs <;> exact ⟨_, rfl⟩
  · intro m raw w hraw hw
    simp [weatherCallTool, weatherTry, weatherIndex, hraw, hw]
  · intro m raw hraw hw hc1 hc2
    have hi : weatherIndex (jsToLowerCase raw) = WeatherIndex.undef := by
      simp [weatherIndex, hw, hc1, hc2]
    simp [weatherCallTool, weatherTry, hraw, hi]
  · intro m raw hraw hc
    have hi : weatherIndex (jsToLowerCase raw) = WeatherIndex.protoCtor := by
      rw [hc]; decide
    simp [weatherCallTool, weatherTry, hraw, hi]
  · intro m raw hraw hc
    have hi : weatherIndex (jsToLowerCase raw) = WeatherIndex.protoProto := by
      rw [hc]; decide
    simp [weatherCallTool, weatherTry, hraw, hi]

/-- C10 witness: the semantics theorem applied to `Tokyo` (case-insensitive
hit) and `Berlin` (unsupported, and not a prototype key). -/
theorem get_weather_city_semantics_witness :
    weatherCallTool "get_weather" (some [("city", JsonV.str "Tokyo")]) =
      okResult (weatherJson { city := "Tokyo", temperature := 25, unit := "C",
                              conditions := "Sunny", humidity := 55, windSpeed := 8 }) ∧
    weatherCallTool "get_weather" (some [("city", JsonV.str "Berlin")]) =
      errorResult (weatherUnavailableMsg "Berlin") := by
  refine ⟨?_, ?_⟩
  · exact get_weather_city_semantics.2.2.2.1 [("city", JsonV.str "Tokyo")] "Tokyo" _
      rfl (by decide)
  · exact get_weather_city_semantics.2.2.2.2.1 [("city", JsonV.str "Berlin")] "Berlin"
      rfl (by decide) (by decide) (by decide)

end MCP
